import Mathlib

/-!
Verification of the Onedev inbound-webhook adapter
(`zerver/webhooks/onedev/view.py`).

The payload is a dynamically typed JSON tree; the handler classifies the
event from the `@class` discriminator, extracts fields with typed accessors,
renders a topic and a body, repairs `[label](None)` placeholder links in the
body, and hands `(topic, body, event)` to the delivery collaborator.
We embed the handler as a function into `Except WebhookError`: an `ok`
result models a call to `check_send_webhook_message` with that triple, an
`error` result models an exception reaching the request boundary (no
message sent).
-/

/-- A JSON-like value, the shape of a webhook payload. -/
inductive JsonValue where
  | null
  | str (s : String)
  | num (n : Int)
  | bool (b : Bool)
  | obj (fields : List (String × JsonValue))
  | arr (elems : List JsonValue)

/-- The error outcomes the handler can surface to the request boundary.
`fieldError` models a `ValidationError` from a typed payload access
(missing key or type mismatch), `unsupportedEvent` models
`UnsupportedWebhookEventType`, and `unboundLocal` models Python's
`UnboundLocalError` for a variable read before assignment. -/
inductive WebhookError where
  | fieldError (msg : String)
  | unsupportedEvent (event : Option String)
  | unboundLocal (var : String)
deriving DecidableEq

/-- Equality of handler outcomes is decidable (used to evaluate concrete
runs of the embedding). -/
instance {ε α : Type} [DecidableEq ε] [DecidableEq α] : DecidableEq (Except ε α)
  | .error e1, .error e2 =>
    if h : e1 = e2 then isTrue (h ▸ rfl) else isFalse (fun hc => h (by injection hc))
  | .error _, .ok _ => isFalse (fun hc => Except.noConfusion hc)
  | .ok _, .error _ => isFalse (fun hc => Except.noConfusion hc)
  | .ok a1, .ok a2 =>
    if h : a1 = a2 then isTrue (h ▸ rfl) else isFalse (fun hc => h (by injection hc))

/-- Modelled from the spec: the `WildValue` subscript access
(`zerver/lib/validator.py` is not under `src/`).  Per the spec's FieldPath
contract, "if the expected key is absent or of the wrong declared type,
the whole request fails". -/
def getField (v : JsonValue) (key : String) : Except WebhookError JsonValue :=
  match v with
  | .obj fields =>
    match fields.lookup key with
    | some w => .ok w
    | none => .error (.fieldError (key ++ " is missing"))
  | _ => .error (.fieldError (key ++ " is not indexable"))

/-- Modelled from the spec: `tame(check_string)` — a typed accessor that
fails with a structured error on a type mismatch. -/
def tameString (v : JsonValue) : Except WebhookError String :=
  match v with
  | .str s => .ok s
  | _ => .error (.fieldError "not a string")

/-- Modelled from the spec: `tame(check_int)`. -/
def tameInt (v : JsonValue) : Except WebhookError Int :=
  match v with
  | .num n => .ok n
  | _ => .error (.fieldError "not an int")

/-- Modelled from the spec: `tame(check_none_or(check_string))` — a nullable
string accessor; a JSON `null` value is allowed and yields `none`. -/
def tameNoneOrString (v : JsonValue) : Except WebhookError (Option String) :=
  match v with
  | .null => .ok none
  | .str s => .ok (some s)
  | _ => .error (.fieldError "not an optional string")

/-! ## The URL-placeholder repair pass (`patchURL`)

`patchURL` is `re2.sub(r"\[(.+)\]\(None\)", <group 1>, text)`: repeatedly
find the leftmost match, replace it by its captured label, and continue
scanning after the match.  A match starts at a `[`; the label `(.+)` is
nonempty, may not contain a newline (`.`), and is greedy, so it extends to
the last position before which `](None)` still follows. -/

/-- The literal tail `](None)` of the repair-pass pattern. -/
def placeholder : List Char := [']', '(', 'N', 'o', 'n', 'e', ')']

/-- Does `pat` occur as a contiguous substring of `t`? -/
def hasSub (pat : List Char) : List Char → Bool
  | [] => pat.isPrefixOf []
  | c :: rest => pat.isPrefixOf (c :: rest) || hasSub pat rest

/-- Candidate label lengths for a match of `\[(.+)\]\(None\)` whose `[` was
just consumed: `j` is a candidate when the label `t.take j` is nonempty and
newline-free and `](None)` follows it.  Listed in increasing order. -/
def matchEnds (t : List Char) : List Nat :=
  (List.range (t.length + 1)).filter
    (fun j => decide (1 ≤ j) && decide ('\n' ∉ t.take j) && placeholder.isPrefixOf (t.drop j))

/-- The greedy (longest) candidate label length, if any. -/
def matchAt (t : List Char) : Option Nat :=
  (matchEnds t).getLast?

/-- Fuel-indexed scan of `re2.sub`: at each `[` try a (greedy) match; on a
match emit the captured label and continue after `](None)`; otherwise copy
the character.  The fuel is only a termination device; `t.length` suffices. -/
def patchAux : Nat → List Char → List Char
  | 0, t => t
  | _ + 1, [] => []
  | fuel + 1, c :: rest =>
    if c = '[' then
      match matchAt rest with
      | some j => rest.take j ++ patchAux fuel (rest.drop (j + 7))
      | none => c :: patchAux fuel rest
    else c :: patchAux fuel rest

/-- The repair pass on a character list. -/
def patchURLChars (t : List Char) : List Char :=
  patchAux t.length t

/-- `patchURL` from the source: replace `[label](None)` link renderings by
their bare label. -/
def patchURL (text : String) : String :=
  String.mk (patchURLChars text.data)

/-! ## Modelled message-templating collaborators

`get_issue_event_message` and `get_pull_request_event_message` live in
`zerver/lib/webhooks/git.py`, which is not under `src/`; they are modelled
from the spec. -/

/-- Modelled from the spec: `get_issue_event_message`
(`zerver/lib/webhooks/git.py`, not in `src/`).  Per the spec the issue body
is the message content — the issue description for "opened" (a `none`
message renders as empty/omitted content), the change description for
"changed". -/
def get_issue_event_message (url : Option String) (user_name : String)
    (number : Int) (action : String) (title : String)
    (message : Option String) : String :=
  message.getD ""

/-- Modelled from the spec: `get_pull_request_event_message`
(`zerver/lib/webhooks/git.py`, not in `src/`).  The spec fixes that
link-style text renders as `[label](URL)` with the literal `None` when no
URL exists, that the body is rendered from user name, action, number and
the two branch names, and that the title appears only when requested; the
exact template follows the expected-message comment in the source
(`john opened [PR #1](…) from ... to ...`). -/
def get_pull_request_event_message (user_name : String) (action : String)
    (url : Option String) (number : Int)
    (target_branch : Option String) (base_branch : Option String)
    (title : Option String) : String :=
  let urlText := url.getD "None"
  let main0 := user_name ++ " " ++ action ++ " [PR #" ++ toString number ++ "](" ++ urlText ++ ")"
  let main1 :=
    match target_branch, base_branch with
    | some t, some b => main0 ++ " from `" ++ t ++ "` to `" ++ b ++ "`."
    | _, _ => main0
  match title with
  | some t => main1 ++ " " ++ t
  | none => main1

/-! ## The source embedding (`zerver/webhooks/onedev/view.py`) -/

/-- `get_event`: map the `@class` discriminator to an event kind; the
Python function implicitly returns `None` (here `none`) when no branch
matches. -/
def get_event (payload : JsonValue) : Except WebhookError (Option String) := do
  let rawEvent ← tameString (← getField payload "@class")
  if rawEvent = "io.onedev.server.event.issue.IssueOpened" then
    pure (some "issue_opened")
  else if rawEvent = "io.onedev.server.event.issue.IssueChanged" then
    pure (some "issue_changed")
  else if rawEvent = "io.onedev.server.event.pullrequest.PullRequestOpened" then
    pure (some "pull_request_opened")
  else if rawEvent = "io.onedev.server.event.pullrequest.PullRequestChanged" then
    pure (some "pull_request_changed")
  else
    pure none

/-- `format_issue_topic`: `f"{project_name} / issue #{number} {title}"`. -/
def format_issue_topic (payload : JsonValue) : Except WebhookError String := do
  let project_name ← tameString (← getField (← getField payload "project") "name")
  let number ← tameInt (← getField (← getField payload "issue") "number")
  let title ← tameString (← getField (← getField payload "issue") "title")
  pure (project_name ++ " / issue #" ++ toString number ++ " " ++ title)

/-- The `else` arm of `format_issue_event` ("changed" events): extract the
change data's `@type`; only `IssueStateChangeData` assigns `message`, any
other type leaves the Python local `message` unbound, so the later read of
`message` raises `UnboundLocalError`. -/
def changeMessage (user_name : String) (chData : JsonValue) :
    Except WebhookError (Option String) := do
  let change_type ← tameString (← getField chData "@type")
  if change_type = "IssueStateChangeData" then do
    let old_state ← tameString (← getField chData "oldState")
    let new_state ← tameString (← getField chData "newState")
    pure (some (user_name ++ " changed \x27state\x27 from \x27" ++ old_state ++
      "\x27 to \x27" ++ new_state ++ "\x27"))
  else
    throw (.unboundLocal "message")

/-- `format_issue_event`: extract user/number/title, compute the message
(nullable description for "opened", change description otherwise), render
via the collaborator and repair placeholder URLs. -/
def format_issue_event (payload : JsonValue) (event_type : String) :
    Except WebhookError String := do
  let user_name ← tameString (← getField (← getField payload "user") "name")
  let number ← tameInt (← getField (← getField payload "issue") "number")
  let title ← tameString (← getField (← getField payload "issue") "title")
  let message ←
    if event_type = "opened" then
      tameNoneOrString (← getField (← getField payload "issue") "description")
    else
      changeMessage user_name (← getField (← getField payload "change") "data")
  pure (patchURL (get_issue_event_message none user_name number event_type title message))

/-- `format_pull_request_topic`: `f"{project_name} / PR #{number} {title}"`. -/
def format_pull_request_topic (payload : JsonValue) : Except WebhookError String := do
  let project_name ← tameString (← getField (← getField payload "project") "name")
  let number ← tameInt (← getField (← getField payload "request") "number")
  let title ← tameString (← getField (← getField payload "request") "title")
  pure (project_name ++ " / PR #" ++ toString number ++ " " ++ title)

/-- `format_pull_request_event`.  The source notes that the upstream field
naming is reversed: the logical target branch is read from the payload
field `sourceBranch` and the logical base branch from `targetBranch`.
`include_title` is the Python keyword argument whose default is `False`;
the handler's call sites never override it. -/
def format_pull_request_event (payload : JsonValue) (include_title : Bool) :
    Except WebhookError String := do
  let user_name ← tameString (← getField (← getField payload "user") "name")
  let action ← tameString (← getField (← getField (← getField payload "request") "lastUpdate") "activity")
  let url : Option String := none
  let number ← tameInt (← getField (← getField payload "request") "number")
  let target_branch ← tameString (← getField (← getField payload "request") "sourceBranch")
  let base_branch ← tameString (← getField (← getField payload "request") "targetBranch")
  let title ←
    if include_title then do
      pure (some (← tameString (← getField (← getField payload "pull_request") "title")))
    else
      pure (none : Option String)
  pure (patchURL (get_pull_request_event_message user_name action url number
    (some target_branch) (some base_branch) title))

/-- `repo = payload["project"]["name"].tame(check_string)`: the first
access the handler performs, before classification. -/
def projectNameOf (payload : JsonValue) : Except WebhookError String := do
  tameString (← getField (← getField payload "project") "name")

/-- The topic selection repeated in every branch of the handler:
`if user_specified_topic: topic = user_specified_topic else: topic = <computed>`.
Python truthiness makes an empty-string override falsy, so it is treated
like an absent override. -/
def chooseTopic (user_specified_topic : Option String)
    (computed : Except WebhookError String) : Except WebhookError String :=
  match user_specified_topic with
  | some t => if t = "" then computed else pure t
  | none => computed

/-- `onedev_webhook_main`: extract the repo name, classify, format body and
topic for the four supported kinds (the Python `event.split("_")[1]` is the
literal `"opened"`/`"changed"` in each reachable branch), and otherwise
raise `UnsupportedWebhookEventType(event)`.  An `ok` triple models the call
`check_send_webhook_message(request, user_profile, topic, body, event)`. -/
def onedev_webhook_main (integration_name : String) (http_header_name : String)
    (payload : JsonValue) (branches : Option String)
    (user_specified_topic : Option String) :
    Except WebhookError (String × String × String) := do
  let _repo ← projectNameOf payload
  let event ← get_event payload
  match event with
  | some e =>
    if e = "issue_opened" then do
      let body ← format_issue_event payload "opened"
      let topic ← chooseTopic user_specified_topic (format_issue_topic payload)
      pure (topic, body, e)
    else if e = "issue_changed" then do
      let body ← format_issue_event payload "changed"
      let topic ← chooseTopic user_specified_topic (format_issue_topic payload)
      pure (topic, body, e)
    else if e = "pull_request_opened" then do
      let body ← format_pull_request_event payload false
      let topic ← chooseTopic user_specified_topic (format_pull_request_topic payload)
      pure (topic, body, e)
    else if e = "pull_request_changed" then do
      let body ← format_pull_request_event payload false
      let topic ← chooseTopic user_specified_topic (format_pull_request_topic payload)
      pure (topic, body, e)
    else
      throw (.unsupportedEvent (some e))
  | none => throw (.unsupportedEvent none)

/-- `api_onedev_webhook`: the view entry point; it accepts the `branches`
and `topic` request parameters and delegates to `onedev_webhook_main`. -/
def api_onedev_webhook (payload : JsonValue) (branches : Option String)
    (user_specified_topic : Option String) :
    Except WebhookError (String × String × String) :=
  onedev_webhook_main "Onedev" "X-Gogs-Event" payload branches user_specified_topic

/-! ## Payload builders used to state the claims -/

/-- The four supported discriminator strings. -/
def supportedClasses : List String :=
  ["io.onedev.server.event.issue.IssueOpened",
   "io.onedev.server.event.issue.IssueChanged",
   "io.onedev.server.event.pullrequest.PullRequestOpened",
   "io.onedev.server.event.pullrequest.PullRequestChanged"]

/-- An issue payload with the fields the issue paths read. -/
def issuePayload (cls proj : String) (n : Int) (title user : String)
    (desc : JsonValue) (changeData : List (String × JsonValue)) : JsonValue :=
  .obj [("@class", .str cls),
        ("project", .obj [("name", .str proj)]),
        ("issue", .obj [("number", .num n), ("title", .str title), ("description", desc)]),
        ("user", .obj [("name", .str user)]),
        ("change", .obj [("data", .obj changeData)])]

/-- An issue payload whose `issue` object has no `description` key. -/
def issuePayloadNoDesc (cls proj : String) (n : Int) (title user : String) : JsonValue :=
  .obj [("@class", .str cls),
        ("project", .obj [("name", .str proj)]),
        ("issue", .obj [("number", .num n), ("title", .str title)]),
        ("user", .obj [("name", .str user)])]

/-- Change data for an issue state transition. -/
def stateChangeData (ty old new : String) : List (String × JsonValue) :=
  [("@type", .str ty), ("oldState", .str old), ("newState", .str new)]

/-- A pull-request payload with the fields the PR paths read. -/
def prPayload (cls proj : String) (n : Int) (title user activity src tgt : String) : JsonValue :=
  .obj [("@class", .str cls),
        ("project", .obj [("name", .str proj)]),
        ("request", .obj [("number", .num n), ("title", .str title),
          ("lastUpdate", .obj [("activity", .str activity)]),
          ("sourceBranch", .str src), ("targetBranch", .str tgt)]),
        ("user", .obj [("name", .str user)])]

/-! ## Helper lemmas about the repair pass -/

theorem isPrefixOf_eq_iff (p : List Char) :
    ∀ t, p.isPrefixOf t = true ↔ ∃ u, t = p ++ u := by
  induction p with
  | nil => intro t; simp [List.isPrefixOf]
  | cons a p ih =>
    intro t
    cases t with
    | nil => simp [List.isPrefixOf]
    | cons b t' =>
      simp only [List.isPrefixOf, Bool.and_eq_true, beq_iff_eq, ih, List.cons_append,
        List.cons.injEq]
      constructor
      · rintro ⟨hab, u, hu⟩; exact ⟨u, hab.symm, hu⟩
      · rintro ⟨u, hba, hu⟩; exact ⟨hba.symm, u, hu⟩

theorem no_sub_no_drop {pat : List Char} (hp : pat ≠ []) :
    ∀ {t : List Char}, hasSub pat t = false → ∀ j, pat.isPrefixOf (t.drop j) = false := by
  intro t
  induction t with
  | nil =>
    intro _ j
    rw [List.drop_nil]
    match pat, hp with
    | a :: p, _ => rfl
  | cons c rest ih =>
    intro h j
    have h' : pat.isPrefixOf (c :: rest) = false ∧ hasSub pat rest = false := by
      simpa [hasSub, Bool.or_eq_false_iff] using h
    cases j with
    | zero => simpa using h'.1
    | succ j => simpa using ih h'.2 j

theorem matchAt_none {t : List Char} (h : hasSub placeholder t = false) :
    matchAt t = none := by
  have hfil : matchEnds t = [] := by
    rw [matchEnds, List.filter_eq_nil_iff]
    intro j _
    rw [no_sub_no_drop (by decide) h j]
    simp
  rw [matchAt, hfil]
  rfl

theorem no_rbracket_no_sub {t : List Char} (h : ']' ∉ t) :
    hasSub placeholder t = false := by
  induction t with
  | nil => rfl
  | cons c rest ih =>
    have hc : c ≠ ']' := fun hc => h (hc ▸ List.mem_cons_self c rest)
    have hr : ']' ∉ rest := fun hr => h (List.mem_cons_of_mem c hr)
    have hpre : placeholder.isPrefixOf (c :: rest) = false := by
      rw [placeholder, List.isPrefixOf]
      have : (']' == c) = false := by
        simp [beq_eq_false_iff_ne]
        exact fun hq => hc hq.symm
      rw [this, Bool.false_and]
    rw [hasSub, hpre, Bool.false_or]
    exact ih hr

theorem patchAux_congr : ∀ (f1 : Nat) (f2 : Nat) (t : List Char),
    t.length ≤ f1 → t.length ≤ f2 → patchAux f1 t = patchAux f2 t := by
  intro f1
  induction f1 with
  | zero =>
    intro f2 t h1 _
    have ht : t = [] := List.eq_nil_of_length_eq_zero (Nat.le_zero.mp h1)
    subst ht
    cases f2 <;> rfl
  | succ f ih =>
    intro f2 t h1 h2
    cases t with
    | nil => cases f2 <;> rfl
    | cons c rest =>
      cases f2 with
      | zero => exact absurd h2 (by simp)
      | succ g =>
        have hf : rest.length ≤ f := by simpa using h1
        have hg : rest.length ≤ g := by simpa using h2
        show patchAux (f + 1) (c :: rest) = patchAux (g + 1) (c :: rest)
        rw [patchAux, patchAux]
        by_cases hc : c = '['
        · rw [if_pos hc, if_pos hc]
          cases hm : matchAt rest with
          | some j =>
            have hd : (rest.drop (j + 7)).length ≤ f :=
              le_trans (by rw [List.length_drop]; omega) hf
            have hd' : (rest.drop (j + 7)).length ≤ g :=
              le_trans (by rw [List.length_drop]; omega) hg
            dsimp only
            rw [ih g _ hd hd']
          | none =>
            dsimp only
            rw [ih g rest hf hg]
        · rw [if_neg hc, if_neg hc, ih g rest hf hg]

theorem patchChars_cons_of_ne {c : Char} (rest : List Char) (h : c ≠ '[') :
    patchURLChars (c :: rest) = c :: patchURLChars rest := by
  show patchAux (rest.length + 1) (c :: rest) = _
  rw [patchAux, if_neg h]
  rfl

theorem patchChars_cons_of_none {rest : List Char} (h : matchAt rest = none) :
    patchURLChars ('[' :: rest) = '[' :: patchURLChars rest := by
  show patchAux (rest.length + 1) ('[' :: rest) = _
  rw [patchAux, if_pos rfl, h]
  rfl

theorem patchChars_cons_of_some {rest : List Char} {j : Nat} (h : matchAt rest = some j) :
    patchURLChars ('[' :: rest) = rest.take j ++ patchURLChars (rest.drop (j + 7)) := by
  show patchAux (rest.length + 1) ('[' :: rest) = _
  rw [patchAux, if_pos rfl, h]
  dsimp only
  exact congrArg (List.take j rest ++ ·)
    (patchAux_congr _ _ _ (by rw [List.length_drop]; omega) (le_refl _))

theorem patchChars_noop : ∀ {t : List Char}, hasSub placeholder t = false →
    patchURLChars t = t := by
  intro t
  induction t with
  | nil => intro _; rfl
  | cons c rest ih =>
    intro h
    have h' : hasSub placeholder rest = false := by
      have := (by simpa [hasSub, Bool.or_eq_false_iff] using h :
        placeholder.isPrefixOf (c :: rest) = false ∧ hasSub placeholder rest = false)
      exact this.2
    by_cases hc : c = '['
    · subst hc
      rw [patchChars_cons_of_none (matchAt_none h'), ih h']
    · rw [patchChars_cons_of_ne rest hc, ih h']

theorem patchChars_skip : ∀ (pre : List Char), (∀ c ∈ pre, c ≠ '[') →
    ∀ u, patchURLChars (pre ++ u) = pre ++ patchURLChars u := by
  intro pre
  induction pre with
  | nil => intro _ u; rfl
  | cons c p ih =>
    intro h u
    have hc : c ≠ '[' := h c (List.mem_cons_self c p)
    have hp : ∀ c ∈ p, c ≠ '[' := fun d hd => h d (List.mem_cons_of_mem c hd)
    rw [List.cons_append, patchChars_cons_of_ne _ hc, ih hp u, List.cons_append]

theorem matchAt_unique (label rest : List Char) (hne : label ≠ [])
    (hnl : '\n' ∉ label) (hl : ']' ∉ label) (hr : ']' ∉ rest) :
    matchAt (label ++ placeholder ++ rest) = some label.length := by
  rw [List.append_assoc]
  have hmem : label.length ∈ matchEnds (label ++ (placeholder ++ rest)) := by
    rw [matchEnds, List.mem_filter]
    refine ⟨?_, ?_⟩
    · rw [List.mem_range]
      have : (label ++ (placeholder ++ rest)).length = label.length + (7 + rest.length) := by
        rw [List.length_append, List.length_append]
        simp [placeholder]
      omega
    · rw [Bool.and_eq_true, Bool.and_eq_true]
      refine ⟨⟨?_, ?_⟩, ?_⟩
      · rw [decide_eq_true_eq]
        exact List.length_pos.mpr hne
      · rw [decide_eq_true_eq, List.take_left]
        exact hnl
      · rw [List.drop_left, isPrefixOf_eq_iff]
        exact ⟨rest, rfl⟩
  have huniq : ∀ j ∈ matchEnds (label ++ (placeholder ++ rest)), j = label.length := by
    intro j hj
    rw [matchEnds, List.mem_filter, Bool.and_eq_true, Bool.and_eq_true] at hj
    obtain ⟨_, ⟨hj1, _⟩, hjp⟩ := hj
    rw [decide_eq_true_eq] at hj1
    rw [isPrefixOf_eq_iff] at hjp
    obtain ⟨u, hu⟩ := hjp
    by_contra hne'
    rcases Nat.lt_or_ge j label.length with hlt | hge
    · have hdrop : (label ++ (placeholder ++ rest)).drop j
          = label.drop j ++ (placeholder ++ rest) := by
        rw [List.drop_append_eq_append_drop, Nat.sub_eq_zero_of_le (le_of_lt hlt),
          List.drop_zero]
      have hld : label.drop j ≠ [] := by
        rw [ne_eq, List.drop_eq_nil_iff]
        omega
      obtain ⟨d, ds, hds⟩ := List.exists_cons_of_ne_nil hld
      rw [hdrop, hds] at hu
      rw [placeholder, List.cons_append] at hu
      injection hu with h1 _
      have hdl : d ∈ label := (List.drop_sublist j label).subset (hds ▸ List.mem_cons_self d ds)
      exact hl (h1 ▸ hdl)
    · have hgt : label.length < j := lt_of_le_of_ne hge (fun h => hne' h.symm)
      obtain ⟨k, rfl⟩ : ∃ k, j = label.length + k := ⟨j - label.length, by omega⟩
      have hk1 : 1 ≤ k := by omega
      have hdropj : (label ++ (placeholder ++ rest)).drop (label.length + k)
          = (placeholder ++ rest).drop k := by
        rw [List.drop_append_eq_append_drop, List.drop_eq_nil_of_le (by omega),
          List.nil_append]
        congr 1
        omega
      rw [hdropj] at hu
      rcases Nat.lt_or_ge k 7 with hk7 | hk7
      · interval_cases k <;>
          (simp only [placeholder, List.cons_append, List.nil_append,
            List.drop_succ_cons, List.drop_zero] at hu;
           injection hu with h1 _;
           exact absurd h1 (by decide))
      · have hdropk : (placeholder ++ rest).drop k = rest.drop (k - 7) := by
          rw [List.drop_append_eq_append_drop,
            List.drop_eq_nil_of_le (by simp [placeholder]; omega), List.nil_append]
          rfl
        rw [hdropk, placeholder, List.cons_append] at hu
        have hmem' : ']' ∈ rest.drop (k - 7) := by
          rw [hu]
          exact List.mem_cons_self _ _
        exact hr ((List.drop_sublist _ _).subset hmem')
  cases hlast : (matchEnds (label ++ (placeholder ++ rest))).getLast? with
  | none => exact absurd (List.getLast?_eq_none_iff.mp hlast) (List.ne_nil_of_mem hmem)
  | some a =>
    have ha := List.mem_of_getLast?_eq_some hlast
    rw [matchAt, hlast, huniq a ha]

/-! ## Helper lemmas about the accessors and the handler -/

theorem bind_error_cases {α β : Type} {A : Except WebhookError α}
    {f : α → Except WebhookError β} {e : WebhookError} (h : A >>= f = Except.error e) :
    A = Except.error e ∨ ∃ a, A = Except.ok a ∧ f a = Except.error e := by
  cases A with
  | error e1 =>
    left
    have h' : (Except.error e1 : Except WebhookError β) = Except.error e := h
    injection h' with h2
    rw [h2]
  | ok a => exact Or.inr ⟨a, rfl, h⟩

theorem getField_error_shape {v : JsonValue} {key : String} {e : WebhookError}
    (h : getField v key = Except.error e) : ∃ m, e = WebhookError.fieldError m := by
  cases v with
  | obj fields =>
    simp only [getField] at h
    cases hl : fields.lookup key with
    | some w => rw [hl] at h; exact Except.noConfusion h
    | none =>
      rw [hl] at h
      injection h with h1
      exact ⟨key ++ " is missing", h1.symm⟩
  | null => injection h with h1; exact ⟨key ++ " is not indexable", h1.symm⟩
  | str s => injection h with h1; exact ⟨key ++ " is not indexable", h1.symm⟩
  | num n => injection h with h1; exact ⟨key ++ " is not indexable", h1.symm⟩
  | bool b => injection h with h1; exact ⟨key ++ " is not indexable", h1.symm⟩
  | arr a => injection h with h1; exact ⟨key ++ " is not indexable", h1.symm⟩

theorem tameString_error_shape {v : JsonValue} {e : WebhookError}
    (h : tameString v = Except.error e) : ∃ m, e = WebhookError.fieldError m := by
  cases v with
  | str s => exact Except.noConfusion h
  | null => injection h with h1; exact ⟨"not a string", h1.symm⟩
  | num n => injection h with h1; exact ⟨"not a string", h1.symm⟩
  | bool b => injection h with h1; exact ⟨"not a string", h1.symm⟩
  | obj f => injection h with h1; exact ⟨"not a string", h1.symm⟩
  | arr a => injection h with h1; exact ⟨"not a string", h1.symm⟩

theorem projectNameOf_error_shape {p : JsonValue} {e : WebhookError}
    (h : projectNameOf p = Except.error e) : ∃ m, e = WebhookError.fieldError m := by
  rw [projectNameOf] at h
  rcases bind_error_cases h with h1 | ⟨pr, _, h2⟩
  · exact getField_error_shape h1
  · rcases bind_error_cases h2 with h3 | ⟨nm, _, h4⟩
    · exact getField_error_shape h3
    · exact tameString_error_shape h4

theorem chooseTopic_some (t : String) (c : Except WebhookError String) :
    chooseTopic (some t) c = if t = "" then c else pure t := rfl

theorem changeMessage_reduced (u ty old new : String) :
    changeMessage u (.obj (stateChangeData ty old new)) =
      if ty = "IssueStateChangeData" then
        Except.ok (some (u ++ " changed \x27state\x27 from \x27" ++ old ++
          "\x27 to \x27" ++ new ++ "\x27"))
      else Except.error (.unboundLocal "message") := rfl

theorem get_event_of_str {p : JsonValue} {s : String}
    (h : getField p "@class" = Except.ok (JsonValue.str s)) :
    get_event p =
      (if s = "io.onedev.server.event.issue.IssueOpened" then Except.ok (some "issue_opened")
      else if s = "io.onedev.server.event.issue.IssueChanged" then Except.ok (some "issue_changed")
      else if s = "io.onedev.server.event.pullrequest.PullRequestOpened" then Except.ok (some "pull_request_opened")
      else if s = "io.onedev.server.event.pullrequest.PullRequestChanged" then Except.ok (some "pull_request_changed")
      else Except.ok none) := by
  rw [get_event, h]
  rfl

theorem get_event_of_error {p : JsonValue} {e : WebhookError}
    (h : getField p "@class" = Except.error e) : get_event p = Except.error e := by
  rw [get_event, h]
  rfl

theorem get_event_of_nonstring {p : JsonValue} {v : JsonValue}
    (h : getField p "@class" = Except.ok v) (hv : ∀ s, v ≠ JsonValue.str s) :
    get_event p = Except.error (WebhookError.fieldError "not a string") := by
  rw [get_event, h]
  cases v with
  | str s => exact absurd rfl (hv s)
  | null => rfl
  | num n => rfl
  | bool b => rfl
  | obj f => rfl
  | arr a => rfl

theorem main_issue_opened_gen (proj : String) (n : Int) (title user : String)
    (br tp : Option String) :
    onedev_webhook_main "Onedev" "X-Gogs-Event"
      (issuePayload "io.onedev.server.event.issue.IssueOpened" proj n title user .null [])
      br tp
    = (do
        let topic ← chooseTopic tp (Except.ok (proj ++ " / issue #" ++ toString n ++ " " ++ title))
        pure (topic, "", "issue_opened")) := rfl

theorem main_issue_opened_desc_gen (proj : String) (n : Int) (title user d : String)
    (br tp : Option String) :
    onedev_webhook_main "Onedev" "X-Gogs-Event"
      (issuePayload "io.onedev.server.event.issue.IssueOpened" proj n title user (.str d) [])
      br tp
    = (do
        let topic ← chooseTopic tp (Except.ok (proj ++ " / issue #" ++ toString n ++ " " ++ title))
        pure (topic, patchURL d, "issue_opened")) := rfl

theorem main_issue_changed_state_gen (proj : String) (n : Int)
    (title user old new : String) (desc : JsonValue) (br tp : Option String) :
    onedev_webhook_main "Onedev" "X-Gogs-Event"
      (issuePayload "io.onedev.server.event.issue.IssueChanged" proj n title user desc
        (stateChangeData "IssueStateChangeData" old new)) br tp
    = (do
        let topic ← chooseTopic tp (Except.ok (proj ++ " / issue #" ++ toString n ++ " " ++ title))
        pure (topic,
          patchURL (user ++ " changed \x27state\x27 from \x27" ++ old ++
            "\x27 to \x27" ++ new ++ "\x27"),
          "issue_changed")) := rfl

theorem main_issue_changed_anyty_gen (proj : String) (n : Int)
    (title user ty old new : String) (desc : JsonValue) (br tp : Option String) :
    onedev_webhook_main "Onedev" "X-Gogs-Event"
      (issuePayload "io.onedev.server.event.issue.IssueChanged" proj n title user desc
        (stateChangeData ty old new)) br tp
    = (do
        let body ← (do
          let message ← changeMessage user (.obj (stateChangeData ty old new))
          pure (patchURL (get_issue_event_message none user n "changed" title message)))
        let topic ← chooseTopic tp (Except.ok (proj ++ " / issue #" ++ toString n ++ " " ++ title))
        pure (topic, body, "issue_changed")) := rfl

theorem main_issue_nodesc_gen (proj : String) (n : Int) (title user : String)
    (br tp : Option String) :
    onedev_webhook_main "Onedev" "X-Gogs-Event"
      (issuePayloadNoDesc "io.onedev.server.event.issue.IssueOpened" proj n title user) br tp
    = Except.error (.fieldError "description is missing") := rfl

theorem main_pr_opened_gen (proj : String) (n : Int) (title user act src tgt : String)
    (br tp : Option String) :
    onedev_webhook_main "Onedev" "X-Gogs-Event"
      (prPayload "io.onedev.server.event.pullrequest.PullRequestOpened" proj n title user act src tgt)
      br tp
    = (do
        let topic ← chooseTopic tp (Except.ok (proj ++ " / PR #" ++ toString n ++ " " ++ title))
        pure (topic,
          patchURL (get_pull_request_event_message user act none n (some src) (some tgt) none),
          "pull_request_opened")) := rfl

theorem main_pr_changed_gen (proj : String) (n : Int) (title user act src tgt : String)
    (br tp : Option String) :
    onedev_webhook_main "Onedev" "X-Gogs-Event"
      (prPayload "io.onedev.server.event.pullrequest.PullRequestChanged" proj n title user act src tgt)
      br tp
    = (do
        let topic ← chooseTopic tp (Except.ok (proj ++ " / PR #" ++ toString n ++ " " ++ title))
        pure (topic,
          patchURL (get_pull_request_event_message user act none n (some src) (some tgt) none),
          "pull_request_changed")) := rfl

/-! ## The claims -/

/-- Claim C1 (amended): for each of the four supported discriminator strings
`get_event` returns exactly the corresponding event kind, and any other
string-valued discriminator yields the Unsupported outcome (`ok none`, not
an error); but a payload whose `@class` field is absent propagates the
field-extraction error of that access (and a non-string discriminator is a
type error) rather than yielding Unsupported. -/
theorem get_event_classification_amended :
    (∀ p s, getField p "@class" = Except.ok (JsonValue.str s) →
      ((s = "io.onedev.server.event.issue.IssueOpened" →
          get_event p = Except.ok (some "issue_opened")) ∧
       (s = "io.onedev.server.event.issue.IssueChanged" →
          get_event p = Except.ok (some "issue_changed")) ∧
       (s = "io.onedev.server.event.pullrequest.PullRequestOpened" →
          get_event p = Except.ok (some "pull_request_opened")) ∧
       (s = "io.onedev.server.event.pullrequest.PullRequestChanged" →
          get_event p = Except.ok (some "pull_request_changed")) ∧
       (s ∉ supportedClasses → get_event p = Except.ok none))) ∧
    (∀ p e, getField p "@class" = Except.error e →
      get_event p = Except.error e ∧ ∃ m, e = WebhookError.fieldError m) ∧
    (∀ p v, getField p "@class" = Except.ok v → (∀ s, v ≠ JsonValue.str s) →
      get_event p = Except.error (WebhookError.fieldError "not a string")) := by
  refine ⟨?_, ?_, ?_⟩
  · intro p s h
    refine ⟨?_, ?_, ?_, ?_, ?_⟩
    · intro hs; subst hs; rw [get_event_of_str h, if_pos rfl]
    · intro hs; subst hs
      rw [get_event_of_str h, if_neg (by decide), if_pos rfl]
    · intro hs; subst hs
      rw [get_event_of_str h, if_neg (by decide), if_neg (by decide), if_pos rfl]
    · intro hs; subst hs
      rw [get_event_of_str h, if_neg (by decide), if_neg (by decide), if_neg (by decide),
        if_pos rfl]
    · intro hs
      simp only [supportedClasses, List.mem_cons, List.not_mem_nil, or_false, not_or] at hs
      obtain ⟨h1, h2, h3, h4⟩ := hs
      rw [get_event_of_str h, if_neg h1, if_neg h2, if_neg h3, if_neg h4]
  · intro p e h
    exact ⟨get_event_of_error h, getField_error_shape h⟩
  · intro p v h hv
    exact get_event_of_nonstring h hv

/-- Witness for C1: a concrete payload with the issue-opened discriminator
classifies to `issue_opened`. -/
theorem get_event_classification_witness :
    get_event (JsonValue.obj
        [("@class", JsonValue.str "io.onedev.server.event.issue.IssueOpened")])
      = Except.ok (some "issue_opened") :=
  ((get_event_classification_amended.1
      (JsonValue.obj [("@class", JsonValue.str "io.onedev.server.event.issue.IssueOpened")])
      "io.onedev.server.event.issue.IssueOpened" rfl).1) rfl

/-- Counterexample for C1 as stated: on the payload whose discriminator
field is absent, classification does not return the Unsupported outcome
(it fails with a field-extraction error instead). -/
theorem get_event_absent_discriminator_cex :
    get_event (JsonValue.obj []) ≠ Except.ok none := by decide

/-- Claim C2 (amended): the repair pass is a no-op on any text that does not
contain the substring `](None)` (in particular on text whose links all have
real URLs); a single well-delimited `[label](None)` occurrence (label
nonempty, no newline, no `]`; no further `]` in the remaining text) is
replaced by its bare label; but the replacement is leftmost-greedy — the
captured label may swallow earlier links — and the pass is not idempotent
in general. -/
theorem patchURL_repair_amended :
    (∀ t : List Char, hasSub placeholder t = false → patchURLChars t = t) ∧
    (∀ pre label rest : List Char, (∀ c ∈ pre, c ≠ '[') → label ≠ [] → '\n' ∉ label →
      ']' ∉ label → ']' ∉ rest →
      patchURLChars (pre ++ '[' :: (label ++ placeholder ++ rest)) = pre ++ label ++ rest) := by
  constructor
  · exact fun t h => patchChars_noop h
  · intro pre label rest hpre hne hnl hl hr
    rw [patchChars_skip pre hpre,
      patchChars_cons_of_some (matchAt_unique label rest hne hnl hl hr)]
    have htake : (label ++ placeholder ++ rest).take label.length = label := by
      rw [List.append_assoc, List.take_left]
    have hdrop : (label ++ placeholder ++ rest).drop (label.length + 7) = rest :=
      List.drop_left' (by simp [placeholder])
    rw [htake, hdrop, patchChars_noop (no_rbracket_no_sub hr), List.append_assoc]

/-- Witness for C2 at concrete text: `see [issue 7](None) now` repairs to
`see issue 7 now`. -/
theorem patchURL_repair_witness :
    patchURLChars ("see ".data ++ '[' :: ("issue 7".data ++ placeholder ++ " now".data))
      = "see ".data ++ "issue 7".data ++ " now".data :=
  patchURL_repair_amended.2 "see ".data "issue 7".data " now".data
    (by decide) (by decide) (by decide) (by decide) (by decide)

/-- Counterexample for C2 as stated: the pass is not idempotent — on
`[[a](None)](None)` one application yields `[a](None)` and a second
application changes it again (to `a`). -/
theorem patchURL_not_idempotent_cex :
    patchURL (patchURL "[[a](None)](None)") ≠ patchURL "[[a](None)](None)" := by decide

/-- Claim C3 (amended): a non-empty user-specified override topic is used
verbatim for every supported event kind (the computed topic is discarded);
but an empty-string override is falsy in Python and is treated like an
absent override; with no effective override the topic is
`<project> / issue #<n> <title>` for issue events and
`<project> / PR #<n> <title>` for pull-request events. -/
theorem topic_override_amended :
    (∀ proj (n : Int) title user old new act src tgt br t, t ≠ "" →
      (onedev_webhook_main "Onedev" "X-Gogs-Event"
          (issuePayload "io.onedev.server.event.issue.IssueOpened" proj n title user .null [])
          br (some t) = Except.ok (t, "", "issue_opened")) ∧
      (onedev_webhook_main "Onedev" "X-Gogs-Event"
          (issuePayload "io.onedev.server.event.issue.IssueChanged" proj n title user .null
            (stateChangeData "IssueStateChangeData" old new)) br (some t)
        = Except.ok (t,
            patchURL (user ++ " changed \x27state\x27 from \x27" ++ old ++
              "\x27 to \x27" ++ new ++ "\x27"),
            "issue_changed")) ∧
      (onedev_webhook_main "Onedev" "X-Gogs-Event"
          (prPayload "io.onedev.server.event.pullrequest.PullRequestOpened" proj n title user act src tgt)
          br (some t)
        = Except.ok (t,
            patchURL (get_pull_request_event_message user act none n (some src) (some tgt) none),
            "pull_request_opened")) ∧
      (onedev_webhook_main "Onedev" "X-Gogs-Event"
          (prPayload "io.onedev.server.event.pullrequest.PullRequestChanged" proj n title user act src tgt)
          br (some t)
        = Except.ok (t,
            patchURL (get_pull_request_event_message user act none n (some src) (some tgt) none),
            "pull_request_changed"))) ∧
    (∀ proj (n : Int) title user old new act src tgt br,
      (onedev_webhook_main "Onedev" "X-Gogs-Event"
          (issuePayload "io.onedev.server.event.issue.IssueOpened" proj n title user .null [])
          br none
        = Except.ok (proj ++ " / issue #" ++ toString n ++ " " ++ title, "", "issue_opened")) ∧
      (onedev_webhook_main "Onedev" "X-Gogs-Event"
          (issuePayload "io.onedev.server.event.issue.IssueChanged" proj n title user .null
            (stateChangeData "IssueStateChangeData" old new)) br none
        = Except.ok (proj ++ " / issue #" ++ toString n ++ " " ++ title,
            patchURL (user ++ " changed \x27state\x27 from \x27" ++ old ++
              "\x27 to \x27" ++ new ++ "\x27"),
            "issue_changed")) ∧
      (onedev_webhook_main "Onedev" "X-Gogs-Event"
          (prPayload "io.onedev.server.event.pullrequest.PullRequestOpened" proj n title user act src tgt)
          br none
        = Except.ok (proj ++ " / PR #" ++ toString n ++ " " ++ title,
            patchURL (get_pull_request_event_message user act none n (some src) (some tgt) none),
            "pull_request_opened")) ∧
      (onedev_webhook_main "Onedev" "X-Gogs-Event"
          (prPayload "io.onedev.server.event.pullrequest.PullRequestChanged" proj n title user act src tgt)
          br none
        = Except.ok (proj ++ " / PR #" ++ toString n ++ " " ++ title,
            patchURL (get_pull_request_event_message user act none n (some src) (some tgt) none),
            "pull_request_changed"))) := by
  constructor
  · intro proj n title user old new act src tgt br t ht
    refine ⟨?_, ?_, ?_, ?_⟩
    · rw [main_issue_opened_gen, chooseTopic_some, if_neg ht]; rfl
    · rw [main_issue_changed_state_gen, chooseTopic_some, if_neg ht]; rfl
    · rw [main_pr_opened_gen, chooseTopic_some, if_neg ht]; rfl
    · rw [main_pr_changed_gen, chooseTopic_some, if_neg ht]; rfl
  · intro proj n title user old new act src tgt br
    exact ⟨rfl, rfl, rfl, rfl⟩

/-- Witness for C3: the override `my-topic` is used verbatim on a concrete
issue-opened payload. -/
theorem topic_override_witness :
    onedev_webhook_main "Onedev" "X-Gogs-Event"
        (issuePayload "io.onedev.server.event.issue.IssueOpened" "p" 1 "T" "u" .null [])
        none (some "my-topic")
      = Except.ok ("my-topic", "", "issue_opened") :=
  (topic_override_amended.1 "p" 1 "T" "u" "o" "c" "a" "s" "t" none "my-topic" (by decide)).1

/-- Counterexample for C3 as stated: supplying the override topic `""` does
not make `""` the topic — the computed topic is used instead. -/
theorem topic_override_empty_cex :
    onedev_webhook_main "Onedev" "X-Gogs-Event"
        (issuePayload "io.onedev.server.event.issue.IssueOpened" "p" 1 "T" "u" .null [])
        none (some "")
      = Except.ok ("p / issue #1 T", "", "issue_opened") ∧ "p / issue #1 T" ≠ "" :=
  ⟨rfl, by decide⟩

/-- Claim C4 (amended): a `null` issue description is a recoverable
degradation — the request succeeds and the body renders as empty content —
but an absent `description` key is a field-extraction error (the request
fails), for any override topic. -/
theorem issue_description_nullable_amended :
    (∀ proj (n : Int) title user br,
      onedev_webhook_main "Onedev" "X-Gogs-Event"
        (issuePayload "io.onedev.server.event.issue.IssueOpened" proj n title user .null [])
        br none
      = Except.ok (proj ++ " / issue #" ++ toString n ++ " " ++ title, "", "issue_opened")) ∧
    (∀ proj (n : Int) title user br tp,
      onedev_webhook_main "Onedev" "X-Gogs-Event"
        (issuePayloadNoDesc "io.onedev.server.event.issue.IssueOpened" proj n title user) br tp
      = Except.error (WebhookError.fieldError "description is missing")) :=
  ⟨fun _ _ _ _ _ => rfl, fun _ _ _ _ _ _ => rfl⟩

/-- Counterexample for C4 as stated: with the `description` key absent the
request does not succeed with empty content — it fails with a
field-extraction error. -/
theorem issue_description_absent_cex :
    onedev_webhook_main "Onedev" "X-Gogs-Event"
      (issuePayloadNoDesc "io.onedev.server.event.issue.IssueOpened" "p" 1 "T" "u") none none
    = Except.error (WebhookError.fieldError "description is missing") := rfl

/-- Claim C5: for every issue-changed payload whose change data has type
`IssueStateChangeData` with user `john`, old state `open` and new state
`closed`, the rendered body is exactly
`john changed 'state' from 'open' to 'closed'`. -/
theorem issue_changed_state_body (proj : String) (n : Int) (title : String)
    (desc : JsonValue) (br : Option String) :
    onedev_webhook_main "Onedev" "X-Gogs-Event"
      (issuePayload "io.onedev.server.event.issue.IssueChanged" proj n title "john" desc
        (stateChangeData "IssueStateChangeData" "open" "closed")) br none
    = Except.ok (proj ++ " / issue #" ++ toString n ++ " " ++ title,
        "john changed \x27state\x27 from \x27open\x27 to \x27closed\x27",
        "issue_changed") := by
  rw [main_issue_changed_state_gen]
  have hb : patchURL ("john" ++ " changed \x27state\x27 from \x27" ++ "open" ++
      "\x27 to \x27" ++ "closed" ++ "\x27")
      = "john changed \x27state\x27 from \x27open\x27 to \x27closed\x27" := by decide
  rw [hb]
  rfl

/-- Claim C6 (amended): an issue-changed payload whose change-data `@type`
is anything other than `IssueStateChangeData` fails hard: the Python local
`message` is never assigned, its read raises `UnboundLocalError`, the
request errors and no message is produced. -/
theorem unknown_change_type_amended (proj : String) (n : Int)
    (title user ty old new : String) (desc : JsonValue) (br tp : Option String)
    (hty : ty ≠ "IssueStateChangeData") :
    onedev_webhook_main "Onedev" "X-Gogs-Event"
      (issuePayload "io.onedev.server.event.issue.IssueChanged" proj n title user desc
        (stateChangeData ty old new)) br tp
    = Except.error (WebhookError.unboundLocal "message") := by
  rw [main_issue_changed_anyty_gen, changeMessage_reduced, if_neg hty]
  rfl

/-- Witness for C6 at a concrete unrecognized change type. -/
theorem unknown_change_type_witness :
    onedev_webhook_main "Onedev" "X-Gogs-Event"
      (issuePayload "io.onedev.server.event.issue.IssueChanged" "p" 1 "T" "u" .null
        (stateChangeData "SomethingElse" "open" "closed")) none none
    = Except.error (WebhookError.unboundLocal "message") :=
  unknown_change_type_amended "p" 1 "T" "u" "SomethingElse" "open" "closed" .null none none
    (by decide)

/-- Counterexample for C6 as stated: on a concrete unrecognized change type
the request does not produce a message — it raises the unbound-variable
error. -/
theorem unknown_change_type_cex :
    onedev_webhook_main "Onedev" "X-Gogs-Event"
      (issuePayload "io.onedev.server.event.issue.IssueChanged" "p" 1 "T" "u" .null
        (stateChangeData "OtherChangeData" "a" "b")) none none
    = Except.error (WebhookError.unboundLocal "message") := rfl

/-- Claim C7 (amended): when `project.name` extracts successfully and the
discriminator is a string not among the four supported classes, the handler
raises the unsupported-event error (an `error` outcome, so
`check_send_webhook_message` is never invoked); when a field extraction
fails first, a field error is raised instead — in either case no message is
sent. -/
theorem unsupported_event_amended (p : JsonValue) (br tp : Option String)
    (repo s : String) (hrepo : projectNameOf p = Except.ok repo)
    (hs : getField p "@class" = Except.ok (JsonValue.str s))
    (hns : s ∉ supportedClasses) :
    onedev_webhook_main "Onedev" "X-Gogs-Event" p br tp
      = Except.error (WebhookError.unsupportedEvent none) := by
  simp only [supportedClasses, List.mem_cons, List.not_mem_nil, or_false, not_or] at hns
  obtain ⟨h1, h2, h3, h4⟩ := hns
  rw [onedev_webhook_main, hrepo, get_event_of_str hs, if_neg h1, if_neg h2, if_neg h3,
    if_neg h4]
  rfl

/-- Witness for C7 at a concrete payload with an unknown discriminator. -/
theorem unsupported_event_witness :
    onedev_webhook_main "Onedev" "X-Gogs-Event"
        (JsonValue.obj [("@class", JsonValue.str "com.example.Other"),
          ("project", JsonValue.obj [("name", JsonValue.str "p")])]) none none
      = Except.error (WebhookError.unsupportedEvent none) :=
  unsupported_event_amended _ none none "p" "com.example.Other" rfl rfl (by decide)

/-- Counterexample for C7 as stated: a payload whose discriminator maps to
no supported kind but which lacks `project` fails with the field-extraction
error of the earlier `project.name` access, not with the unsupported-event
error. -/
theorem unsupported_event_cex :
    onedev_webhook_main "Onedev" "X-Gogs-Event"
        (JsonValue.obj [("@class", JsonValue.str "com.example.Whatever")]) none none
      = Except.error (WebhookError.fieldError "project is missing") ∧
    onedev_webhook_main "Onedev" "X-Gogs-Event"
        (JsonValue.obj [("@class", JsonValue.str "com.example.Whatever")]) none none
      ≠ Except.error (WebhookError.unsupportedEvent none) :=
  ⟨rfl, by decide⟩

/-- Claim C8: for both pull-request kinds the rendered body takes the
logical target branch from the payload field `sourceBranch` and the logical
base branch from `targetBranch` (the documented inversion, visible in the
`target_branch`/`base_branch` argument slots of the collaborator call), and
the title slot is `none` since `include_title` is false on every reachable
formatting path; on the spec's scenario the body is exactly
`john opened PR #1 from [backtick]master[backtick] to [backtick]feature[backtick].` -/
theorem pull_request_branch_inversion :
    (∀ proj (n : Int) title user act src tgt br,
      onedev_webhook_main "Onedev" "X-Gogs-Event"
        (prPayload "io.onedev.server.event.pullrequest.PullRequestOpened" proj n title user act src tgt)
        br none
      = Except.ok (proj ++ " / PR #" ++ toString n ++ " " ++ title,
          patchURL (get_pull_request_event_message user act none n (some src) (some tgt) none),
          "pull_request_opened")) ∧
    (∀ proj (n : Int) title user act src tgt br,
      onedev_webhook_main "Onedev" "X-Gogs-Event"
        (prPayload "io.onedev.server.event.pullrequest.PullRequestChanged" proj n title user act src tgt)
        br none
      = Except.ok (proj ++ " / PR #" ++ toString n ++ " " ++ title,
          patchURL (get_pull_request_event_message user act none n (some src) (some tgt) none),
          "pull_request_changed")) ∧
    onedev_webhook_main "Onedev" "X-Gogs-Event"
      (prPayload "io.onedev.server.event.pullrequest.PullRequestOpened"
        "try-git" 1 "T" "john" "opened" "master" "feature") none none
    = Except.ok ("try-git / PR #1 T",
        "john opened PR #1 from `master` to `feature`.",
        "pull_request_opened") :=
  ⟨fun _ _ _ _ _ _ _ _ => rfl, fun _ _ _ _ _ _ _ _ => rfl, by decide⟩

/-- Claim C9: the `branches` parameter is accepted by the view and the
handler and has no influence on the outcome: any two values (including an
absent one) give identical results, for every payload and override topic. -/
theorem branches_param_unused (iname hname : String) (p : JsonValue)
    (b1 b2 tp : Option String) :
    onedev_webhook_main iname hname p b1 tp = onedev_webhook_main iname hname p b2 tp ∧
    api_onedev_webhook p b1 tp = onedev_webhook_main "Onedev" "X-Gogs-Event" p b1 tp :=
  ⟨rfl, rfl⟩

/-- Claim C10: the handler extracts `project.name` before classifying, so a
payload whose `project.name` access fails always yields that
field-extraction error — never the unsupported-event error — regardless of
its discriminator. -/
theorem project_name_extracted_first (p : JsonValue) (br tp : Option String)
    (e : WebhookError) (h : projectNameOf p = Except.error e) :
    onedev_webhook_main "Onedev" "X-Gogs-Event" p br tp = Except.error e ∧
      ∃ m, e = WebhookError.fieldError m := by
  constructor
  · rw [onedev_webhook_main, h]
    rfl
  · exact projectNameOf_error_shape h

/-- Witness for C10 at a concrete payload without a `project` object. -/
theorem project_name_extracted_first_witness :
    onedev_webhook_main "Onedev" "X-Gogs-Event"
        (JsonValue.obj [("@class", JsonValue.str "io.onedev.server.event.issue.IssueOpened")])
        none none
      = Except.error (WebhookError.fieldError "project is missing") ∧
    ∃ m, WebhookError.fieldError "project is missing" = WebhookError.fieldError m :=
  project_name_extracted_first
    (JsonValue.obj [("@class", JsonValue.str "io.onedev.server.event.issue.IssueOpened")])
    none none (WebhookError.fieldError "project is missing") rfl
